import Mathlib

/-!
Verification development for the `reqif_app` package (files
`excel_to_reqif.py` and `generate_reqif.py`): a document model and encoder
for the ReqIF requirements-interchange format, plus a line-oriented
converter from plain text to XHTML paragraphs / bullet lists.

The Python `xml.etree.ElementTree.Element` values are embedded as the
`XNode` tree below (tag, attributes in insertion order, optional text,
children).  Serialization to bytes (`minidom.toprettyxml`) is a
deterministic function of this tree and is not modelled further.
-/

/-- Shallow embedding of `xml.etree.ElementTree.Element`: tag, attributes
(association list in insertion order), optional `.text`, and child
elements.  The `.tail` field is never used by the encoder paths modelled
here and is omitted. -/
inductive XNode where
  | mk (tag : String) (attrs : List (String × String)) (text : Option String)
      (children : List XNode)

def XNode.tag : XNode → String
  | .mk t _ _ _ => t

def XNode.attrs : XNode → List (String × String)
  | .mk _ a _ _ => a

def XNode.text : XNode → Option String
  | .mk _ _ tx _ => tx

def XNode.children : XNode → List XNode
  | .mk _ _ _ c => c

def emptyNode : XNode := .mk "" [] none []

/-- `x.children[i]`, with a junk default. -/
def childAt (x : XNode) (i : Nat) : XNode := x.children.getD i emptyNode

/-- Association-list lookup, embedding Python `dict.get(key)` for the
string-keyed dictionaries used by the generator (insertion order kept). -/
def dictGet : List (String × String) → String → Option String
  | [], _ => none
  | (k, v) :: rest, key => if key = k then some v else dictGet rest key

/-- The whitespace characters stripped by Python `str.rstrip()` /
`str.strip()` (ASCII subset, which covers every string these programs
produce or compare). -/
def isPySpace (c : Char) : Bool :=
  c == ' ' || c == '\t' || c == '\n' || c == '\r' || c == '\u000b' || c == '\u000c'

/-- Python `str.rstrip()` on a character list. -/
def rstripC (l : List Char) : List Char :=
  (l.reverse.dropWhile isPySpace).reverse

/-- Python `str.lstrip()` on a character list. -/
def lstripC (l : List Char) : List Char := l.dropWhile isPySpace

/-- Python `str.strip()` on a character list. -/
def stripC (l : List Char) : List Char := lstripC (rstripC l)

/-- Python `line.startswith("- ")`. -/
def startsDash : List Char → Bool
  | '-' :: ' ' :: _ => true
  | _ => false

/-- Python `text.replace("\r\n", "\n")` (left-to-right, non-overlapping). -/
def replCRLF : List Char → List Char
  | [] => []
  | [c] => [c]
  | c1 :: c2 :: rest =>
    if c1 = '\r' ∧ c2 = '\n' then '\n' :: replCRLF rest
    else c1 :: replCRLF (c2 :: rest)

/-- Python `text.replace("\r", "\n")`. -/
def replCR (l : List Char) : List Char :=
  l.map fun c => if c = '\r' then '\n' else c

/-- Python `text.split("\n")`: `""` yields `[""]`, a trailing newline
yields a trailing empty piece. -/
def splitNl : List Char → List (List Char)
  | [] => [[]]
  | c :: rest =>
    if c = '\n' then [] :: splitNl rest
    else
      match splitNl rest with
      | l :: ls => (c :: l) :: ls
      | [] => [[c]]

/-- The line list scanned by `build_xhtml_from_text`:
`text.replace('\r\n', '\n').replace('\r', '\n').split('\n')`. -/
def pyLines (text : String) : List (List Char) :=
  splitNl (replCR (replCRLF text.data))

/-- The XHTML namespace used by both source files. -/
def xhtmlNs : String := "http://www.w3.org/1999/xhtml"

/-- A namespaced XHTML tag, Python `f"{ns}div"` with
`ns = "\x7bhttp://www.w3.org/1999/xhtml\x7d"`. -/
def nsTag (t : String) : String := "\x7b" ++ xhtmlNs ++ "\x7d" ++ t

/-- A block produced by the converter: one `<p>` (its final text) or one
`<ul>` (its item texts in order). -/
inductive RTBlock where
  | p (text : String)
  | ul (items : List String)

/-- `flush_paragraph` of `build_xhtml_from_text`: join the buffered lines
with `"\n"`, strip, and append one paragraph block if nonempty. -/
def flushPar (blocks : List RTBlock) (buf : List (List Char)) : List RTBlock :=
  let content := stripC (List.intercalate ['\n'] buf)
  if content = [] then blocks else blocks ++ [.p ⟨content⟩]

/-- The line loop of `build_xhtml_from_text`.  The Python code mutates a
`div` element, a `buffer` list, a `list_mode` flag and the currently open
`ul`; here `blocks` is the sequence of committed blocks, `buf` the pending
paragraph lines and `cur` the items of the currently open list (`none` =
`list_mode` false).  A `ul` opened in Python is attached to the `div`
immediately; committing it when list mode ends (or at end of input)
produces the same block order, because the buffer is always empty while a
list is open. -/
def convLoop (blocks : List RTBlock) (buf : List (List Char))
    (cur : Option (List String)) : List (List Char) → List RTBlock
  | [] =>
    let blocks2 := match cur with
      | some items => blocks ++ [.ul items]
      | none => blocks
    if buf = [] then blocks2 else flushPar blocks2 buf
  | raw :: rest =>
    let line := rstripC raw
    if line = [] then
      match cur with
      | some items => convLoop (blocks ++ [.ul items]) buf none rest
      | none =>
        if buf = [] then convLoop blocks buf none rest
        else convLoop (flushPar blocks buf) [] none rest
    else if startsDash line then
      match cur with
      | none =>
        let blocks2 := if buf = [] then blocks else flushPar blocks buf
        convLoop blocks2 [] (some [⟨stripC (line.drop 2)⟩]) rest
      | some items => convLoop blocks buf (some (items ++ [⟨stripC (line.drop 2)⟩])) rest
    else
      match cur with
      | some items => convLoop (blocks ++ [.ul items]) (buf ++ [line]) none rest
      | none => convLoop blocks (buf ++ [line]) none rest

/-- Rendering of a block into the XHTML fragment. -/
def blockToXml : RTBlock → XNode
  | .p t => .mk (nsTag "p") [] (some t) []
  | .ul items => .mk (nsTag "ul") [] none (items.map fun it => .mk (nsTag "li") [] (some it) [])

/-- `build_xhtml_from_text` of `excel_to_reqif.py`: plain text to an XHTML
`div` of paragraphs and unordered lists. -/
def build_xhtml_from_text (text : String) : XNode :=
  if text = "" then .mk (nsTag "div") [] none [.mk (nsTag "p") [] (some "") []]
  else .mk (nsTag "div") [] none ((convLoop [] [] none (pyLines text)).map blockToXml)

/-- A raw line that the loop treats as a list item: its right-stripped
form starts with the two-character marker `"- "`. -/
def markedLine (raw : List Char) : Bool := startsDash (rstripC raw)

/-- Number of maximal runs of consecutive marked lines; `b` records
whether the previous line was inside a run (i.e. a list is open). -/
def runsAux : Bool → List (List Char) → Nat
  | _, [] => 0
  | b, l :: ls =>
    if markedLine l then (if b then 0 else 1) + runsAux true ls
    else runsAux false ls

/-- Bullet-list blocks among a block list. -/
def ulCountB : List RTBlock → Nat
  | [] => 0
  | .p _ :: rest => ulCountB rest
  | .ul _ :: rest => ulCountB rest + 1

/-- Bullet-list nodes among the children of a fragment. -/
def ulCountX (x : XNode) : Nat :=
  x.children.countP fun c => c.tag == nsTag "ul"

/-- Whether a fragment has at least one bullet-list child. -/
def hasUlX (x : XNode) : Bool :=
  x.children.any fun c => c.tag == nsTag "ul"

/-!  `generate_reqif.py`: the `ReqIFGenerator` class.  The instance fields
set in `__init__` and never reassigned (`dt_*`, `status_values`,
`priority_values`) are modelled as the constants below; the mutable fields
(`title`, `timestamp`, `spec_objects`, `spec_relations`) form `GenState`.
The `timestamp` field holds the `datetime.now()` string read once at
construction. -/

/-- `self.status_values`. -/
def statusValues : List (String × String) :=
  [("draft", "EV-STATUS-DRAFT"), ("wip", "EV-STATUS-WIP"),
   ("reviewed", "EV-STATUS-REVIEWED"), ("approved", "EV-STATUS-APPROVED")]

/-- `self.priority_values`. -/
def priorityValues : List (String × String) :=
  [("high", "EV-PRIO-HIGH"), ("medium", "EV-PRIO-MEDIUM"), ("low", "EV-PRIO-LOW")]

/-- Python `str.lower()` (ASCII case fold; every key these dictionaries
hold is ASCII). -/
def pyLowerChar (c : Char) : Char :=
  if 'A' ≤ c ∧ c ≤ 'Z' then Char.ofNat (c.toNat + 32) else c

def pyLower (s : String) : String := ⟨s.data.map pyLowerChar⟩

/-- Python `str(n)` for a natural number (decimal, no leading zeros). -/
def pyStr (n : Nat) : String :=
  if n = 0 then "0" else ⟨(Nat.digits 10 n).reverse.map Nat.digitChar⟩

/-- Python `s.zfill(w)` for an unsigned digit string: left-pad with `'0'`
to width `w`. -/
def pyZfill (w : Nat) (s : String) : String :=
  ⟨List.replicate (w - s.data.length) '0' ++ s.data⟩

/-- The auto-generated object identifier
`f"SO-{prefix_short}-{str(len(self.spec_objects) + 1).zfill(3)}"`. -/
def autoSoId (code : String) (n : Nat) : String :=
  "SO-" ++ code ++ "-" ++ pyZfill 3 (pyStr n)

/-- The `text_content` parameter of `add_requirement` is duck-typed: either
an already-built `Element` or a plain string. -/
inductive TextContent where
  | elem (x : XNode)
  | plain (s : String)

/-- One entry of `self.spec_objects` (the `req` dict built by
`add_requirement`). -/
structure Req where
  identifier : String
  type_ref : String
  foreign_id : Int
  name : String
  chapter : String
  description : String
  text_content : TextContent
  status : String
  priority : String
  reqPfx : String
  attrPfx : String
  ie_puid : String

/-- One entry of `self.spec_relations` (the `rel` dict built by
`add_relation`). -/
structure RelEdge where
  identifier : String
  type_ref : String
  source : String
  target : String

/-- The mutable state of a `ReqIFGenerator` instance. -/
structure GenState where
  title : String
  timestamp : String
  spec_objects : List Req
  spec_relations : List RelEdge

/-- `ReqIFGenerator.__init__`: `ts` is the `datetime.now()` string read at
construction time. -/
def initState (title ts : String) : GenState := ⟨title, ts, [], []⟩

/-- The `type_map` of `add_requirement`:
kind ↦ (type reference, identifier short code, attribute prefix). -/
def typeMap (req_type : String) : Option (String × String × String) :=
  if req_type = "functional" then some ("T-REQ-FUNCTIONAL", "F", "F")
  else if req_type = "interface" then some ("T-REQ-INTERFACE", "I", "I")
  else if req_type = "performance" then some ("T-REQ-PERFORMANCE", "P", "P")
  else none

/-- `ReqIFGenerator.add_requirement`.  Optional parameters are embedded as
`Option`, `none` meaning the argument was not passed, in which case the
Python defaults (`status='approved'`, `priority='high'`, `req_prefix='SYS'`,
`identifier=None`, `ie_puid=None`) apply.  The `ValueError` raised on an
unknown kind becomes `.error`; since the Python raise happens before any
mutation, the state component is returned unchanged in that case. -/
def add_requirement (st : GenState) (req_type : String) (foreign_id : Int)
    (name chapter description : String) (text_content : TextContent)
    (status priority reqPfxArg identifier iePuidArg : Option String) :
    Except String String × GenState :=
  match typeMap req_type with
  | none => (.error ("Invalid req_type: " ++ req_type), st)
  | some (type_ref, pfxShort, attrPfx) =>
    let statusArg := status.getD "approved"
    let priorityArg := priority.getD "high"
    let ident := identifier.getD (autoSoId pfxShort (st.spec_objects.length + 1))
    let iePuid := iePuidArg.getD ("REQ-" ++ pyZfill 3 (pyStr (st.spec_objects.length + 1)))
    let req : Req :=
      { identifier := ident
        type_ref := type_ref
        foreign_id := foreign_id
        name := name
        chapter := chapter
        description := description
        text_content := text_content
        status := (dictGet statusValues (pyLower statusArg)).getD "EV-STATUS-APPROVED"
        priority := (dictGet priorityValues (pyLower priorityArg)).getD "EV-PRIO-MEDIUM"
        reqPfx := reqPfxArg.getD "SYS"
        attrPfx := attrPfx
        ie_puid := iePuid }
    (.ok ident, { st with spec_objects := st.spec_objects ++ [req] })

/-- The `type_map` of `add_relation`. -/
def relTypeMap (relation_type : String) : Option String :=
  if relation_type = "satisfy" then some "T-REL-SATISFY"
  else if relation_type = "derive" then some "T-REL-DERIVE"
  else if relation_type = "refine" then some "T-REL-REFINE"
  else none

/-- `ReqIFGenerator.add_relation`: no check at all that `source_id` /
`target_id` name registered objects. -/
def add_relation (st : GenState) (relation_type source_id target_id : String)
    (identifier : Option String) : Except String Unit × GenState :=
  match relTypeMap relation_type with
  | none => (.error ("Invalid relation_type: " ++ relation_type), st)
  | some tref =>
    let ident := identifier.getD ("SR-" ++ pyZfill 3 (pyStr (st.spec_relations.length + 1)))
    (.ok (), { st with spec_relations :=
        st.spec_relations ++ [{ identifier := ident, type_ref := tref,
                                source := source_id, target := target_id }] })

/-- `_create_xhtml_element` for a plain string (the only way the encoder
calls it): an XHTML `div` holding one paragraph. -/
def xhtmlElement (text_content : String) : XNode :=
  .mk (nsTag "div") [] none [.mk (nsTag "p") [] (some text_content) []]

/-- The `isinstance(req['text_content'], Element)` branch of
`_create_spec_objects`. -/
def textContentXml : TextContent → XNode
  | .elem x => x
  | .plain s => xhtmlElement s

/-- `_create_header`. -/
def headerXml (title ts : String) : XNode :=
  .mk "THE-HEADER" [] none
    [.mk "REQ-IF-HEADER" [("IDENTIFIER", "HDR-001")] none
      [.mk "CREATION-TIME" [] (some ts) [],
       .mk "REQ-IF-TOOL-ID" [] (some "ReqIF_Generator") [],
       .mk "REQ-IF-VERSION" [] (some "1.0") [],
       .mk "SOURCE-TOOL-ID" [] (some "ReqIF_Generator") [],
       .mk "TITLE" [] (some title) []]]

/-- One `ENUM-VALUE` entry of `_create_datatypes`. -/
def enumValueXml (ident longName key : String) : XNode :=
  .mk "ENUM-VALUE" [("IDENTIFIER", ident), ("LONG-NAME", longName)] none
    [.mk "PROPERTIES" [] none
      [.mk "EMBEDDED-VALUE" [("KEY", key), ("OTHER-CONTENT", longName)] none []]]

/-- `_create_datatypes`: the children of the `DATATYPES` element
(identifiers inlined from the constant `self.dt_*` fields). -/
def datatypeChildren : List XNode :=
  [.mk "DATATYPE-DEFINITION-STRING" [("IDENTIFIER", "DT-STRING"), ("LONG-NAME", "String")] none [],
   .mk "DATATYPE-DEFINITION-XHTML" [("IDENTIFIER", "DT-XHTML"), ("LONG-NAME", "XHTMLString")] none [],
   .mk "DATATYPE-DEFINITION-INTEGER" [("IDENTIFIER", "DT-INTEGER"), ("LONG-NAME", "Integer")] none [],
   .mk "DATATYPE-DEFINITION-ENUMERATION" [("IDENTIFIER", "DT-STATUS"), ("LONG-NAME", "Status")] none
     [.mk "SPECIFIED-VALUES" [] none
       [enumValueXml "EV-STATUS-DRAFT" "Draft" "0",
        enumValueXml "EV-STATUS-WIP" "Work-in-progress" "1",
        enumValueXml "EV-STATUS-REVIEWED" "Reviewed" "2",
        enumValueXml "EV-STATUS-APPROVED" "Approved" "3"]],
   .mk "DATATYPE-DEFINITION-ENUMERATION" [("IDENTIFIER", "DT-PRIORITY"), ("LONG-NAME", "Priority")] none
     [.mk "SPECIFIED-VALUES" [] none
       [enumValueXml "EV-PRIO-HIGH" "High" "0",
        enumValueXml "EV-PRIO-MEDIUM" "Medium" "1",
        enumValueXml "EV-PRIO-LOW" "Low" "2"]]]

/-- One attribute definition with its `TYPE`/datatype reference, as built
repeatedly by `_create_spec_object_type` and `_create_spec_types`. -/
def attrDefXml (elemTag ident longName : String) (extra : List (String × String))
    (refTag refVal : String) : XNode :=
  .mk elemTag ([("IDENTIFIER", ident), ("LONG-NAME", longName)] ++ extra) none
    [.mk "TYPE" [] none [.mk refTag [] (some refVal) []]]

/-- `_create_spec_object_type`: a `SPEC-OBJECT-TYPE` with the nine standard
attribute definitions, declared in this order. -/
def specObjectTypeXml (type_id long_name pfx : String) : XNode :=
  .mk "SPEC-OBJECT-TYPE" [("IDENTIFIER", type_id), ("LONG-NAME", long_name)] none
    [.mk "SPEC-ATTRIBUTES" [] none
      [attrDefXml "ATTRIBUTE-DEFINITION-INTEGER" (pfx ++ "-AD-FOREIGNID") "ReqIF.ForeignID" []
         "DATATYPE-DEFINITION-INTEGER-REF" "DT-INTEGER",
       attrDefXml "ATTRIBUTE-DEFINITION-STRING" (pfx ++ "-AD-NAME") "ReqIF.Name" []
         "DATATYPE-DEFINITION-STRING-REF" "DT-STRING",
       attrDefXml "ATTRIBUTE-DEFINITION-STRING" (pfx ++ "-AD-IEPUID") "IE PUID" []
         "DATATYPE-DEFINITION-STRING-REF" "DT-STRING",
       attrDefXml "ATTRIBUTE-DEFINITION-STRING" (pfx ++ "-AD-CHAP") "ReqIF.ChapterName" []
         "DATATYPE-DEFINITION-STRING-REF" "DT-STRING",
       attrDefXml "ATTRIBUTE-DEFINITION-XHTML" (pfx ++ "-AD-DESC") "ReqIF.Description" []
         "DATATYPE-DEFINITION-XHTML-REF" "DT-XHTML",
       attrDefXml "ATTRIBUTE-DEFINITION-STRING" (pfx ++ "-AD-PREFIX") "ReqIF.Prefix" []
         "DATATYPE-DEFINITION-STRING-REF" "DT-STRING",
       attrDefXml "ATTRIBUTE-DEFINITION-XHTML" (pfx ++ "-AD-TEXT") "ReqIF.Text" []
         "DATATYPE-DEFINITION-XHTML-REF" "DT-XHTML",
       attrDefXml "ATTRIBUTE-DEFINITION-ENUMERATION" (pfx ++ "-AD-STATUS") "Status"
         [("MULTI-VALUED", "false")] "DATATYPE-DEFINITION-ENUMERATION-REF" "DT-STATUS",
       attrDefXml "ATTRIBUTE-DEFINITION-ENUMERATION" (pfx ++ "-AD-PRIORITY") "Priority"
         [("MULTI-VALUED", "false")] "DATATYPE-DEFINITION-ENUMERATION-REF" "DT-PRIORITY"]]

/-- `_create_spec_types`: children of the `SPEC-TYPES` element. -/
def specTypesChildren : List XNode :=
  [.mk "SPECIFICATION-TYPE" [("IDENTIFIER", "T-MODULE"), ("LONG-NAME", "Stakeholder Requirements")] none
     [.mk "SPEC-ATTRIBUTES" [] none
       [attrDefXml "ATTRIBUTE-DEFINITION-STRING" "AD-MOD-ID" "ID" []
          "DATATYPE-DEFINITION-STRING-REF" "DT-STRING",
        attrDefXml "ATTRIBUTE-DEFINITION-XHTML" "AD-MOD-DESC" "Description" []
          "DATATYPE-DEFINITION-XHTML-REF" "DT-XHTML"]],
   specObjectTypeXml "T-REQ-FUNCTIONAL" "functional" "F",
   specObjectTypeXml "T-REQ-INTERFACE" "interface" "I",
   specObjectTypeXml "T-REQ-PERFORMANCE" "performance" "P",
   .mk "SPEC-RELATION-TYPE" [("IDENTIFIER", "T-REL-SATISFY"), ("LONG-NAME", "satisfy")] none [],
   .mk "SPEC-RELATION-TYPE" [("IDENTIFIER", "T-REL-DERIVE"), ("LONG-NAME", "derive")] none [],
   .mk "SPEC-RELATION-TYPE" [("IDENTIFIER", "T-REL-REFINE"), ("LONG-NAME", "refine")] none []]

/-- `_create_spec_objects`, one stored requirement: the `SPEC-OBJECT`
element with its `TYPE` reference and the nine attribute values, emitted
in the source order ForeignID, Name, ChapterName, IE PUID, Description,
Prefix, Text, Status, Priority. -/
def specObjectXml (ts : String) (r : Req) : XNode :=
  .mk "SPEC-OBJECT" [("IDENTIFIER", r.identifier), ("LAST-CHANGE", ts)] none
    [.mk "TYPE" [] none [.mk "SPEC-OBJECT-TYPE-REF" [] (some r.type_ref) []],
     .mk "VALUES" [] none
       [.mk "ATTRIBUTE-VALUE-INTEGER" [("THE-VALUE", toString r.foreign_id)] none
          [.mk "DEFINITION" [] none
            [.mk "ATTRIBUTE-DEFINITION-INTEGER-REF" [] (some (r.attrPfx ++ "-AD-FOREIGNID")) []]],
        .mk "ATTRIBUTE-VALUE-STRING" [("THE-VALUE", r.name)] none
          [.mk "DEFINITION" [] none
            [.mk "ATTRIBUTE-DEFINITION-STRING-REF" [] (some (r.attrPfx ++ "-AD-NAME")) []]],
        .mk "ATTRIBUTE-VALUE-STRING" [("THE-VALUE", r.chapter)] none
          [.mk "DEFINITION" [] none
            [.mk "ATTRIBUTE-DEFINITION-STRING-REF" [] (some (r.attrPfx ++ "-AD-CHAP")) []]],
        .mk "ATTRIBUTE-VALUE-STRING" [("THE-VALUE", r.ie_puid)] none
          [.mk "DEFINITION" [] none
            [.mk "ATTRIBUTE-DEFINITION-STRING-REF" [] (some (r.attrPfx ++ "-AD-IEPUID")) []]],
        .mk "ATTRIBUTE-VALUE-XHTML" [] none
          [.mk "DEFINITION" [] none
            [.mk "ATTRIBUTE-DEFINITION-XHTML-REF" [] (some (r.attrPfx ++ "-AD-DESC")) []],
           .mk "THE-VALUE" [] none [xhtmlElement r.description]],
        .mk "ATTRIBUTE-VALUE-STRING" [("THE-VALUE", r.reqPfx)] none
          [.mk "DEFINITION" [] none
            [.mk "ATTRIBUTE-DEFINITION-STRING-REF" [] (some (r.attrPfx ++ "-AD-PREFIX")) []]],
        .mk "ATTRIBUTE-VALUE-XHTML" [] none
          [.mk "DEFINITION" [] none
            [.mk "ATTRIBUTE-DEFINITION-XHTML-REF" [] (some (r.attrPfx ++ "-AD-TEXT")) []],
           .mk "THE-VALUE" [] none [textContentXml r.text_content]],
        .mk "ATTRIBUTE-VALUE-ENUMERATION" [] none
          [.mk "DEFINITION" [] none
            [.mk "ATTRIBUTE-DEFINITION-ENUMERATION-REF" [] (some (r.attrPfx ++ "-AD-STATUS")) []],
           .mk "VALUES" [] none [.mk "ENUM-VALUE-REF" [] (some r.status) []]],
        .mk "ATTRIBUTE-VALUE-ENUMERATION" [] none
          [.mk "DEFINITION" [] none
            [.mk "ATTRIBUTE-DEFINITION-ENUMERATION-REF" [] (some (r.attrPfx ++ "-AD-PRIORITY")) []],
           .mk "VALUES" [] none [.mk "ENUM-VALUE-REF" [] (some r.priority) []]]]]

/-- `_create_spec_relations`, one stored relation. -/
def relationXml (ts : String) (rel : RelEdge) : XNode :=
  .mk "SPEC-RELATION" [("IDENTIFIER", rel.identifier), ("LAST-CHANGE", ts)] none
    [.mk "TYPE" [] none [.mk "SPEC-RELATION-TYPE-REF" [] (some rel.type_ref) []],
     .mk "SOURCE" [] none [.mk "SPEC-OBJECT-REF" [] (some rel.source) []],
     .mk "TARGET" [] none [.mk "SPEC-OBJECT-REF" [] (some rel.target) []]]

/-- One `SPEC-HIERARCHY` child of `_create_specifications`
(`idx` counts from 1, as `enumerate(self.spec_objects, 1)`). -/
def specHierarchyXml (ts : String) (idx : Nat) (r : Req) : XNode :=
  .mk "SPEC-HIERARCHY" [("IDENTIFIER", "SH-" ++ pyZfill 3 (pyStr idx)), ("LAST-CHANGE", ts)] none
    [.mk "OBJECT" [] none [.mk "SPEC-OBJECT-REF" [] (some r.identifier) []]]

/-- `_create_specifications`. -/
def specificationXml (ts title : String) (objs : List Req) : XNode :=
  .mk "SPECIFICATION" [("IDENTIFIER", "SP-001"), ("LONG-NAME", title), ("LAST-CHANGE", ts)] none
    [.mk "TYPE" [] none [.mk "SPECIFICATION-TYPE-REF" [] (some "T-MODULE") []],
     .mk "VALUES" [] none
       [.mk "ATTRIBUTE-VALUE-STRING" [("THE-VALUE", "SRS-001")] none
          [.mk "DEFINITION" [] none [.mk "ATTRIBUTE-DEFINITION-STRING-REF" [] (some "AD-MOD-ID") []]],
        .mk "ATTRIBUTE-VALUE-XHTML" [] none
          [.mk "DEFINITION" [] none [.mk "ATTRIBUTE-DEFINITION-XHTML-REF" [] (some "AD-MOD-DESC") []],
           .mk "THE-VALUE" [] none
            [xhtmlElement ("This module contains system-level requirements for " ++ title ++ ".")]]],
     .mk "CHILDREN" [] none
       ((List.enumFrom 1 objs).map fun p => specHierarchyXml ts p.1 p.2)]

/-- `ReqIFGenerator.generate`: the full document tree.  The final
pretty-printing and file write are a deterministic function of this tree
and are not modelled. -/
def generate (st : GenState) : XNode :=
  .mk "REQ-IF" [("xmlns", "http://www.omg.org/spec/ReqIF/20110401/reqif.xsd")] none
    [headerXml st.title st.timestamp,
     .mk "CORE-CONTENT" [] none
       [.mk "REQ-IF-CONTENT" [] none
         [.mk "DATATYPES" [] none datatypeChildren,
          .mk "SPEC-TYPES" [] none specTypesChildren,
          .mk "SPEC-OBJECTS" [] none (st.spec_objects.map (specObjectXml st.timestamp)),
          .mk "SPEC-RELATIONS" [] none (st.spec_relations.map (relationXml st.timestamp)),
          .mk "SPECIFICATIONS" [] none [specificationXml st.timestamp st.title st.spec_objects]]],
     .mk "TOOL-EXTENSIONS" [] none []]

/-!  Analysis helpers (timestamp substitution, attribute-order extraction,
identifier decoding) and concrete states used by individual theorems. -/

/-- Replace the clock-derived positions of a document tree by `ts`: the
text of every `CREATION-TIME` element and the value of every `LAST-CHANGE`
attribute.  Used to state exactly where the host-clock value can occur in
the encoder output. -/
def substTs (ts : String) : XNode → XNode
  | .mk tag attrs text children =>
    .mk tag (attrs.map fun p => if p.1 = "LAST-CHANGE" then (p.1, ts) else p)
      (if tag = "CREATION-TIME" then some ts else text)
      (children.attach.map fun c => substTs ts c.1)
decreasing_by
  have := List.sizeOf_lt_of_mem c.2
  simp only [XNode.mk.sizeOf_spec]
  omega

/-- `substTs` lifted to the duck-typed `text_content` payload. -/
def substTsTC (ts : String) : TextContent → TextContent
  | .elem x => .elem (substTs ts x)
  | .plain s => .plain s

/-- The attribute-definition reference of one `ATTRIBUTE-VALUE-*` element:
the text of the `*-REF` child of its `DEFINITION` child (the `DEFINITION`
element is the first child in every branch of `_create_spec_objects`). -/
def defRefOf (x : XNode) : Option String :=
  match x.children with
  | d :: _ =>
    match d.children with
    | r :: _ => r.text
    | [] => none
  | [] => none

/-- The attribute-definition references carried by a `SPEC-OBJECT` block,
in emission order (its children are `[TYPE, VALUES]`). -/
def valuesAttrRefs (specObj : XNode) : List (Option String) :=
  (childAt specObj 1).children.map defRefOf

/-- The attribute-definition identifiers declared by a `SPEC-OBJECT-TYPE`,
in declaration order (its only child is `SPEC-ATTRIBUTES`). -/
def declaredAttrIds (t : XNode) : List (Option String) :=
  (childAt t 0).children.map fun a => dictGet a.attrs "IDENTIFIER"

/-- The `SOURCE/SPEC-OBJECT-REF` text of a `SPEC-RELATION` block. -/
def sourceRefOf (x : XNode) : Option String := (childAt (childAt x 1) 0).text

/-- The `TARGET/SPEC-OBJECT-REF` text of a `SPEC-RELATION` block. -/
def targetRefOf (x : XNode) : Option String := (childAt (childAt x 2) 0).text

/-- Decimal decoding of a digit string (used to invert `pyStr`/`pyZfill`). -/
def decVal (l : List Char) : Nat :=
  l.foldl (fun a c => a * 10 + (c.toNat - 48)) 0

/-- The arguments of one `add_requirement` call. -/
structure CallArgs where
  req_type : String
  foreign_id : Int
  name : String
  chapter : String
  description : String
  text_content : TextContent
  status : Option String
  priority : Option String
  reqPfx : Option String
  identifier : Option String
  ie_puid : Option String

/-- Run a sequence of `add_requirement` calls (each failed call leaves the
state unchanged, as the raised `ValueError` propagates to the caller). -/
def runCalls (st : GenState) : List CallArgs → GenState
  | [] => st
  | c :: rest =>
    runCalls (add_requirement st c.req_type c.foreign_id c.name c.chapter c.description
      c.text_content c.status c.priority c.reqPfx c.identifier c.ie_puid).2 rest

/-- Every stored object's identifier is the auto-generated
`SO-<shortCode>-<zfill3(position + 1)>`, the numeric part being the global
running object count at registration time. -/
def AutoIds (objs : List Req) : Prop :=
  ∀ i (h : i < objs.length), ∃ code, code ∈ (["F", "I", "P"] : List String) ∧
    (objs.get ⟨i, h⟩).identifier = autoSoId code (i + 1)

/-- A concrete stored requirement (explicit identifier), for evaluating
the encoder on one object block. -/
def reqF : Req :=
  { identifier := "SO-F-001"
    type_ref := "T-REQ-FUNCTIONAL"
    foreign_id := 1
    name := "N"
    chapter := "C"
    description := "D"
    text_content := .plain "T"
    status := "EV-STATUS-APPROVED"
    priority := "EV-PRIO-HIGH"
    reqPfx := "SYS"
    attrPfx := "F"
    ie_puid := "RQ-1" }

/-- A generator created at clock value `TS-CLOCK-01` holding one
requirement (explicit identifier and business key). -/
def stC2 : GenState :=
  (add_requirement (initState "T" "TS-CLOCK-01") "functional" 1 "N" "C" "D" (.plain "X")
    none none none (some "SO-X-001") (some "RQ-1")).2

/-- Two concrete `add_requirement` calls of different kinds, neither
supplying an identifier. -/
def callsEx : List CallArgs :=
  [{ req_type := "functional", foreign_id := 1, name := "A", chapter := "", description := "",
     text_content := .plain "a", status := none, priority := none, reqPfx := none,
     identifier := none, ie_puid := none },
   { req_type := "interface", foreign_id := 2, name := "B", chapter := "", description := "",
     text_content := .plain "b", status := none, priority := none, reqPfx := none,
     identifier := none, ie_puid := none }]

/-!  Theorems.  First the supporting lemmas, then one theorem per claim
(with witness or counterexample where required). -/

theorem substTs_mk (ts tag : String) (attrs : List (String × String)) (text : Option String)
    (children : List XNode) :
    substTs ts (.mk tag attrs text children) =
      .mk tag (attrs.map fun p => if p.1 = "LAST-CHANGE" then (p.1, ts) else p)
        (if tag = "CREATION-TIME" then some ts else text)
        (children.map (substTs ts)) := by
  rw [substTs]
  simp [List.attach_map_coe]


theorem ulCountB_append (a b : List RTBlock) : ulCountB (a ++ b) = ulCountB a + ulCountB b := by
  induction a with
  | nil => simp [ulCountB]
  | cons x xs ih => cases x <;> simp [ulCountB, ih] <;> omega

theorem ulCountB_flushPar (blocks : List RTBlock) (buf : List (List Char)) :
    ulCountB (flushPar blocks buf) = ulCountB blocks := by
  simp only [flushPar]
  by_cases h : stripC (List.intercalate ['\n'] buf) = []
  · simp [h]
  · simp [h, ulCountB_append, ulCountB]

theorem convLoop_ulCount : ∀ (lines : List (List Char)) (blocks : List RTBlock)
    (buf : List (List Char)) (cur : Option (List String)),
    ulCountB (convLoop blocks buf cur lines) =
      ulCountB blocks + (if cur.isSome then 1 else 0) + runsAux cur.isSome lines := by
  intro lines
  induction lines with
  | nil =>
    intro blocks buf cur
    cases cur with
    | none =>
      by_cases hb : buf = [] <;> simp [convLoop, hb, runsAux, ulCountB_flushPar]
    | some items =>
      by_cases hb : buf = [] <;>
        simp [convLoop, hb, runsAux, ulCountB_flushPar, ulCountB_append, ulCountB]
  | cons raw rest ih =>
    intro blocks buf cur
    by_cases hb : rstripC raw = []
    · have hm : markedLine raw = false := by simp [markedLine, hb, startsDash]
      cases cur with
      | none =>
        by_cases hbuf : buf = [] <;>
          simp [convLoop, hb, hbuf, runsAux, hm, ih, ulCountB_flushPar]
      | some items =>
        simp [convLoop, hb, runsAux, hm, ih, ulCountB_append, ulCountB]
    · by_cases hd : startsDash (rstripC raw) = true
      · have hm : markedLine raw = true := by simp [markedLine, hd]
        cases cur with
        | none =>
          by_cases hbuf : buf = [] <;>
            simp [convLoop, hb, hbuf, hd, runsAux, hm, ih, ulCountB_flushPar] <;> omega
        | some items =>
          simp [convLoop, hb, hd, runsAux, hm, ih]
      · have hm : markedLine raw = false := by
          have := hd
          simp [markedLine]
          simpa using hd
        cases cur with
        | none =>
          simp [convLoop, hb, hd, runsAux, hm, ih]
        | some items =>
          simp [convLoop, hb, hd, runsAux, hm, ih, ulCountB_append, ulCountB]

theorem runsAux_eq_zero_of_unmarked (lines : List (List Char))
    (h : ∀ raw ∈ lines, markedLine raw = false) : ∀ b, runsAux b lines = 0 := by
  induction lines with
  | nil => intro b; rfl
  | cons l ls ih =>
    intro b
    have hl := h l (by simp)
    simp [runsAux, hl]
    exact ih (fun raw hr => h raw (by simp [hr])) false

theorem runsAux_false_eq_zero_iff (lines : List (List Char)) :
    runsAux false lines = 0 ↔ ∀ raw ∈ lines, markedLine raw = false := by
  constructor
  · induction lines with
    | nil => simp
    | cons l ls ih =>
      intro h raw hr
      by_cases hm : markedLine l = true
      · exfalso
        simp [runsAux, hm] at h
      · have hm' : markedLine l = false := by simpa using hm
        simp [runsAux, hm'] at h
        rcases List.mem_cons.1 hr with rfl | hr'
        · exact hm'
        · exact ih h raw hr'
  · intro h
    exact runsAux_eq_zero_of_unmarked lines h false

theorem ulCountX_map_blocks (blocks : List RTBlock) :
    (blocks.map blockToXml).countP (fun c => c.tag == nsTag "ul") = ulCountB blocks := by
  have h1 : ((nsTag "p") == nsTag "ul") = false := by decide
  have h2 : ((nsTag "ul") == nsTag "ul") = true := by decide
  induction blocks with
  | nil => rfl
  | cons b bs ih =>
    cases b with
    | p t =>
      rw [List.map_cons, List.countP_cons]
      have ht : ((blockToXml (.p t)).tag == nsTag "ul") = false := h1
      rw [ht]
      simpa [ulCountB] using ih
    | ul items =>
      rw [List.map_cons, List.countP_cons]
      have ht : ((blockToXml (.ul items)).tag == nsTag "ul") = true := h2
      rw [ht]
      simpa [ulCountB] using ih

theorem build_children (text : String) (h : text ≠ "") :
    (build_xhtml_from_text text).children =
      (convLoop [] [] none (pyLines text)).map blockToXml := by
  simp [build_xhtml_from_text, h, XNode.children]

theorem hasUlX_iff_pos (x : XNode) : hasUlX x = true ↔ 0 < ulCountX x := by
  simp [hasUlX, ulCountX, List.any_eq_true, List.countP_pos_iff]

/-- C4 (amended): for every input, the number of BulletList nodes produced
by `build_xhtml_from_text` equals the number of maximal runs of
consecutive lines whose *right-stripped* form starts with `"- "`; in
particular a BulletList appears iff some line, after line-ending
normalization and right-trimming of trailing whitespace, starts with
`"- "`.  Consecutive marked lines merging into one node and a blank line
strictly between two marked groups yielding two nodes are both instances
of the run count. -/
theorem C4_bullet_list_runs (text : String) :
    ulCountX (build_xhtml_from_text text) = runsAux false (pyLines text) ∧
    (hasUlX (build_xhtml_from_text text) = true ↔
      ∃ raw ∈ pyLines text, markedLine raw = true) := by
  have key : ulCountX (build_xhtml_from_text text) = runsAux false (pyLines text) := by
    by_cases h : text = ""
    · subst h; decide
    · unfold ulCountX
      rw [build_children text h, ulCountX_map_blocks,
        convLoop_ulCount (pyLines text) [] [] none]
      simp [ulCountB]
  refine ⟨key, ?_⟩
  rw [hasUlX_iff_pos, key]
  constructor
  · intro hpos
    by_contra hno
    push_neg at hno
    have hall : ∀ raw ∈ pyLines text, markedLine raw = false := by
      intro raw hr
      simpa using hno raw hr
    rw [(runsAux_false_eq_zero_iff (pyLines text)).2 hall] at hpos
    exact Nat.lt_irrefl 0 hpos
  · rintro ⟨raw, hr, hm⟩
    rcases Nat.eq_zero_or_pos (runsAux false (pyLines text)) with hz | hpos
    · have := (runsAux_false_eq_zero_iff (pyLines text)).1 hz raw hr
      rw [hm] at this
      exact absurd this (by simp)
    · exact hpos

/-- C4 counterexample: the input `"- "` is non-blank and its only line
starts with the two-character marker `"- "`, yet the converter produces no
BulletList node, because the marker test runs on the right-stripped line
`"-"`. -/
theorem C4_counterexample :
    ("- ".data.all isPySpace = false) ∧
    (∃ raw ∈ pyLines "- ", startsDash raw = true) ∧
    hasUlX (build_xhtml_from_text "- ") = false := by
  decide

/-- C8: `build_xhtml_from_text ""` returns a fragment holding exactly one
paragraph node whose text is the empty string, not an empty fragment. -/
theorem C8_empty_input :
    build_xhtml_from_text "" =
      .mk (nsTag "div") [] none [.mk (nsTag "p") [] (some "") []] :=
  rfl


theorem mem_replCRLF : ∀ (l : List Char), ∀ c ∈ replCRLF l, c = '\n' ∨ c ∈ l
  | [] => by
    intro c hc
    rw [replCRLF] at hc
    exact absurd hc (by simp)
  | [c0] => by
    intro c hc
    rw [replCRLF] at hc
    exact Or.inr hc
  | c1 :: c2 :: rest => by
    intro c hc
    rw [replCRLF] at hc
    by_cases h : c1 = '\r' ∧ c2 = '\n'
    · rw [if_pos h] at hc
      rcases List.mem_cons.1 hc with rfl | hc'
      · exact Or.inl rfl
      · rcases mem_replCRLF rest c hc' with hnl | hmem
        · exact Or.inl hnl
        · exact Or.inr (by simp [hmem])
    · rw [if_neg h] at hc
      rcases List.mem_cons.1 hc with rfl | hc'
      · exact Or.inr (by simp)
      · rcases mem_replCRLF (c2 :: rest) c hc' with hnl | hmem
        · exact Or.inl hnl
        · exact Or.inr (List.mem_cons_of_mem c1 hmem)

theorem mem_splitNl : ∀ (l : List Char), ∀ piece ∈ splitNl l, ∀ c ∈ piece, c ∈ l := by
  intro l
  induction l with
  | nil =>
    intro piece hp c hc
    rw [splitNl] at hp
    rcases List.mem_singleton.1 hp with rfl
    exact absurd hc (by simp)
  | cons c0 rest ih =>
    intro piece hp c hc
    rw [splitNl] at hp
    by_cases hn : c0 = '\n'
    · rw [if_pos hn] at hp
      rcases List.mem_cons.1 hp with rfl | hp'
      · exact absurd hc (by simp)
      · exact List.mem_cons_of_mem c0 (ih piece hp' c hc)
    · rw [if_neg hn] at hp
      cases heq : splitNl rest with
      | nil =>
        rw [heq] at hp
        rcases List.mem_singleton.1 hp with rfl
        rcases List.mem_singleton.1 hc with rfl
        simp
      | cons l0 ls0 =>
        rw [heq] at hp
        rcases List.mem_cons.1 hp with rfl | hp'
        · rcases List.mem_cons.1 hc with rfl | hc'
          · simp
          · have hl0 : l0 ∈ splitNl rest := by rw [heq]; simp
            exact List.mem_cons_of_mem c0 (ih l0 hl0 c hc')
        · have hpp : piece ∈ splitNl rest := by rw [heq]; simp [hp']
          exact List.mem_cons_of_mem c0 (ih piece hpp c hc)

theorem rstripC_of_allWs (raw : List Char) (h : ∀ c ∈ raw, isPySpace c = true) :
    rstripC raw = [] := by
  unfold rstripC
  have : raw.reverse.dropWhile isPySpace = [] := by
    rw [List.dropWhile_eq_nil_iff]
    intro x hx
    exact h x (List.mem_reverse.1 hx)
  rw [this]
  rfl

theorem convLoop_blanks : ∀ (lines : List (List Char)) (blocks : List RTBlock),
    (∀ raw ∈ lines, rstripC raw = []) → convLoop blocks [] none lines = blocks := by
  intro lines
  induction lines with
  | nil => intro blocks _; rfl
  | cons raw rest ih =>
    intro blocks h
    have hb := h raw (by simp)
    simp [convLoop, hb]
    exact ih blocks fun r hr => h r (by simp [hr])

/-- C10: a nonempty input made only of whitespace characters produces a
fragment with zero block nodes, while the empty string produces exactly
one empty paragraph node. -/
theorem C10_whitespace_input (text : String) (h0 : text ≠ "")
    (hw : ∀ c ∈ text.data, isPySpace c = true) :
    (build_xhtml_from_text text).children = [] ∧
    (build_xhtml_from_text "").children = [.mk (nsTag "p") [] (some "") []] := by
  refine ⟨?_, rfl⟩
  have hlines : ∀ raw ∈ pyLines text, rstripC raw = [] := by
    intro raw hr
    apply rstripC_of_allWs
    intro c hc
    have hcl : c ∈ replCR (replCRLF text.data) := mem_splitNl _ raw hr c hc
    rcases List.mem_map.1 hcl with ⟨d, hd, rfl⟩
    rcases mem_replCRLF _ d hd with hnl | hd2
    · rw [hnl]; decide
    · have hds := hw d hd2
      by_cases hdr : d = '\r'
      · rw [hdr]; decide
      · simp [hdr, hds]
  rw [build_children text h0, convLoop_blanks (pyLines text) [] hlines]
  rfl

/-- C10 witness: a single-space input is nonempty and all-whitespace, and
indeed yields a fragment with no block nodes. -/
theorem C10_witness :
    (build_xhtml_from_text " ").children = [] :=
  (C10_whitespace_input " " (by decide) (by decide)).1

theorem typeMap_eq_none_iff (rt : String) :
    typeMap rt = none ↔ rt ∉ (["functional", "interface", "performance"] : List String) := by
  unfold typeMap
  split_ifs with h1 h2 h3 <;> simp_all

/-- C6: `add_requirement` with a kind outside functional/interface/
performance fails with the `ValueError` and leaves the document unchanged
(the raise happens before any mutation). -/
theorem C6_invalid_kind (st : GenState) (rt : String) (fid : Int)
    (nm ch d : String) (tc : TextContent) (s p rp idf ip : Option String)
    (h : rt ∉ (["functional", "interface", "performance"] : List String)) :
    add_requirement st rt fid nm ch d tc s p rp idf ip =
      (.error ("Invalid req_type: " ++ rt), st) := by
  have hn : typeMap rt = none := (typeMap_eq_none_iff rt).2 h
  simp [add_requirement, hn]

/-- C6 witness: the invalid kind `"epic"` errors out and the freshly
initialized state comes back untouched. -/
theorem C6_witness :
    add_requirement (initState "T" "TS") "epic" 1 "N" "C" "D" (.plain "x")
      none none none none none =
      (.error ("Invalid req_type: " ++ "epic"), initState "T" "TS") :=
  C6_invalid_kind (initState "T" "TS") "epic" 1 "N" "C" "D" (.plain "x")
    none none none none none (by decide)

theorem dictGet_getD_mem_or (d : List (String × String)) (k dflt : String) :
    (dictGet d k).getD dflt ∈ d.map Prod.snd ∨ (dictGet d k).getD dflt = dflt := by
  induction d with
  | nil => simp [dictGet]
  | cons kv rest ih =>
    obtain ⟨k0, v0⟩ := kv
    by_cases h : k = k0
    · simp [dictGet, h]
    · simp only [dictGet, if_neg h, List.map_cons]
      rcases ih with hm | hd
      · exact Or.inl (List.mem_cons_of_mem _ hm)
      · exact Or.inr hd

theorem status_resolved_mem (key : String) :
    (dictGet statusValues key).getD "EV-STATUS-APPROVED" ∈
      (["EV-STATUS-DRAFT", "EV-STATUS-WIP", "EV-STATUS-REVIEWED",
        "EV-STATUS-APPROVED"] : List String) := by
  rcases dictGet_getD_mem_or statusValues key "EV-STATUS-APPROVED" with hm | hd
  · simpa [statusValues] using hm
  · rw [hd]; simp

theorem priority_resolved_mem (key : String) :
    (dictGet priorityValues key).getD "EV-PRIO-MEDIUM" ∈
      (["EV-PRIO-HIGH", "EV-PRIO-MEDIUM", "EV-PRIO-LOW"] : List String) := by
  rcases dictGet_getD_mem_or priorityValues key "EV-PRIO-MEDIUM" with hm | hd
  · simpa [priorityValues] using hm
  · rw [hd]; simp

theorem status_unset_eval :
    (dictGet statusValues (pyLower ((none : Option String).getD "approved"))).getD
      "EV-STATUS-APPROVED" = "EV-STATUS-APPROVED" := by
  decide

theorem priority_unset_eval :
    (dictGet priorityValues (pyLower ((none : Option String).getD "high"))).getD
      "EV-PRIO-MEDIUM" = "EV-PRIO-HIGH" := by
  decide

theorem status_unrec_eval (sv : String) (hnone : dictGet statusValues (pyLower sv) = none) :
    (dictGet statusValues (pyLower ((some sv).getD "approved"))).getD
      "EV-STATUS-APPROVED" = "EV-STATUS-APPROVED" := by
  rw [Option.getD_some, hnone]
  rfl

theorem priority_unrec_eval (pv : String) (hnone : dictGet priorityValues (pyLower pv) = none) :
    (dictGet priorityValues (pyLower ((some pv).getD "high"))).getD
      "EV-PRIO-MEDIUM" = "EV-PRIO-MEDIUM" := by
  rw [Option.getD_some, hnone]
  rfl

/-- C3 (amended): for every `add_requirement` call with a valid kind the
stored status and priority are always fixed enumeration identifiers;
status resolves to approved when unset or unrecognized, priority resolves
to medium when unrecognized but to high when unset (the Python default
argument is `'high'`, not `'medium'`). -/
theorem C3_status_priority_defaults (st : GenState) (rt : String) (fid : Int)
    (nm ch d : String) (tc : TextContent) (s p rp idf ip : Option String)
    (h : rt ∈ (["functional", "interface", "performance"] : List String)) :
    ∃ r : Req,
      (add_requirement st rt fid nm ch d tc s p rp idf ip).2.spec_objects =
        st.spec_objects ++ [r] ∧
      r.status ∈ (["EV-STATUS-DRAFT", "EV-STATUS-WIP", "EV-STATUS-REVIEWED",
        "EV-STATUS-APPROVED"] : List String) ∧
      r.priority ∈ (["EV-PRIO-HIGH", "EV-PRIO-MEDIUM", "EV-PRIO-LOW"] : List String) ∧
      (s = none → r.status = "EV-STATUS-APPROVED") ∧
      (∀ sv, s = some sv → dictGet statusValues (pyLower sv) = none →
        r.status = "EV-STATUS-APPROVED") ∧
      (p = none → r.priority = "EV-PRIO-HIGH") ∧
      (∀ pv, p = some pv → dictGet priorityValues (pyLower pv) = none →
        r.priority = "EV-PRIO-MEDIUM") := by
  simp only [List.mem_cons, List.mem_singleton, List.not_mem_nil, or_false] at h
  rcases h with rfl | rfl | rfl <;>
  · simp only [add_requirement, typeMap, if_pos, if_neg, reduceIte]
    refine ⟨_, rfl, ?_, ?_, ?_, ?_, ?_, ?_⟩
    · exact status_resolved_mem _
    · exact priority_resolved_mem _
    · rintro rfl
      exact status_unset_eval
    · rintro sv rfl hnone
      exact status_unrec_eval sv hnone
    · rintro rfl
      exact priority_unset_eval
    · rintro pv rfl hnone
      exact priority_unrec_eval pv hnone

/-- C3 counterexample: a call with the priority argument unset stores
`EV-PRIO-HIGH`, not the `EV-PRIO-MEDIUM` the claim asserts. -/
theorem C3_counterexample :
    ((add_requirement (initState "T" "TS") "functional" 1 "N" "C" "D" (.plain "x")
        none none none none none).2.spec_objects.map Req.priority = ["EV-PRIO-HIGH"]) ∧
    ("EV-PRIO-HIGH" : String) ≠ "EV-PRIO-MEDIUM" := by
  refine ⟨?_, by decide⟩
  decide

/-- C3 witness: a concrete valid call with both optional enum arguments
unset stores approved status and high priority. -/
theorem C3_witness :
    ∃ r : Req,
      (add_requirement (initState "T" "TS") "functional" 1 "N" "C" "D" (.plain "x")
        none none none none none).2.spec_objects =
        (initState "T" "TS").spec_objects ++ [r] ∧
      r.status = "EV-STATUS-APPROVED" ∧ r.priority = "EV-PRIO-HIGH" := by
  obtain ⟨r, h1, _, _, h4, _, h6, _⟩ :=
    C3_status_priority_defaults (initState "T" "TS") "functional" 1 "N" "C" "D" (.plain "x")
      none none none none none (by decide)
  exact ⟨r, h1, h4 rfl, h6 rfl⟩

theorem dictGet_lower_eval (vals : List (String × String)) (sv key out : String)
    (hlow : pyLower sv = key) (hkey : dictGet vals key = some out) (dflt : String) :
    (dictGet vals (pyLower ((some sv).getD "x"))).getD dflt = out := by
  rw [Option.getD_some, hlow, hkey]
  rfl

/-- C9: `add_requirement` matches the status and priority arguments
case-insensitively (they are passed through `str.lower()` before the
dictionary lookup), so any casing of a recognized value resolves to the
corresponding enumeration identifier instead of the default. -/
theorem C9_case_insensitive (st : GenState) (rt : String) (fid : Int)
    (nm ch d : String) (tc : TextContent) (sv pv : String) (rp idf ip : Option String)
    (h : rt ∈ (["functional", "interface", "performance"] : List String)) :
    ∃ r : Req,
      (add_requirement st rt fid nm ch d tc (some sv) (some pv) rp idf ip).2.spec_objects =
        st.spec_objects ++ [r] ∧
      (pyLower sv = "draft" → r.status = "EV-STATUS-DRAFT") ∧
      (pyLower sv = "wip" → r.status = "EV-STATUS-WIP") ∧
      (pyLower sv = "reviewed" → r.status = "EV-STATUS-REVIEWED") ∧
      (pyLower sv = "approved" → r.status = "EV-STATUS-APPROVED") ∧
      (pyLower pv = "high" → r.priority = "EV-PRIO-HIGH") ∧
      (pyLower pv = "medium" → r.priority = "EV-PRIO-MEDIUM") ∧
      (pyLower pv = "low" → r.priority = "EV-PRIO-LOW") := by
  simp only [List.mem_cons, List.mem_singleton, List.not_mem_nil, or_false] at h
  rcases h with rfl | rfl | rfl <;>
  · simp only [add_requirement, typeMap, reduceIte]
    refine ⟨_, rfl, ?_, ?_, ?_, ?_, ?_, ?_, ?_⟩ <;>
    · intro hlow
      refine dictGet_lower_eval _ _ _ _ hlow ?_ _
      rfl

/-- C9 witness: mixed-case `"DrAfT"` and upper-case `"LOW"` resolve to the
draft and low enumeration identifiers on a concrete call. -/
theorem C9_witness :
    ∃ r : Req,
      (add_requirement (initState "T" "TS") "functional" 1 "N" "C" "D" (.plain "x")
        (some "DrAfT") (some "LOW") none none none).2.spec_objects =
        (initState "T" "TS").spec_objects ++ [r] ∧
      r.status = "EV-STATUS-DRAFT" ∧ r.priority = "EV-PRIO-LOW" := by
  obtain ⟨r, h1, hs, _, _, _, _, _, hp⟩ :=
    C9_case_insensitive (initState "T" "TS") "functional" 1 "N" "C" "D" (.plain "x")
      "DrAfT" "LOW" none none none (by decide)
  exact ⟨r, h1, hs (by decide), hp (by decide)⟩

/-- C1 (amended): every emitted `SPEC-OBJECT` block carries its nine
attribute values in the fixed order ForeignID, Name, ChapterName,
ExternalKey (IE PUID), Description, Prefix, Text, Status, Priority — the
catalog's declared order with ChapterName and ExternalKey swapped. -/
theorem C1_attr_value_order (ts : String) (r : Req) :
    valuesAttrRefs (specObjectXml ts r) =
      [some (r.attrPfx ++ "-AD-FOREIGNID"), some (r.attrPfx ++ "-AD-NAME"),
       some (r.attrPfx ++ "-AD-CHAP"), some (r.attrPfx ++ "-AD-IEPUID"),
       some (r.attrPfx ++ "-AD-DESC"), some (r.attrPfx ++ "-AD-PREFIX"),
       some (r.attrPfx ++ "-AD-TEXT"), some (r.attrPfx ++ "-AD-STATUS"),
       some (r.attrPfx ++ "-AD-PRIORITY")] :=
  rfl

/-- C1 counterexample: the catalog declares the attribute identifiers in
the order ForeignID, Name, IEPUID, ChapterName, …, but the object block
emitted for a concrete requirement does not carry its values in that
order (ChapterName comes before IEPUID). -/
theorem C1_counterexample :
    declaredAttrIds (specObjectTypeXml "T-REQ-FUNCTIONAL" "functional" "F") =
      [some "F-AD-FOREIGNID", some "F-AD-NAME", some "F-AD-IEPUID", some "F-AD-CHAP",
       some "F-AD-DESC", some "F-AD-PREFIX", some "F-AD-TEXT", some "F-AD-STATUS",
       some "F-AD-PRIORITY"] ∧
    valuesAttrRefs (specObjectXml "2024-01-01T00:00:00Z" reqF) ≠
      [some "F-AD-FOREIGNID", some "F-AD-NAME", some "F-AD-IEPUID", some "F-AD-CHAP",
       some "F-AD-DESC", some "F-AD-PREFIX", some "F-AD-TEXT", some "F-AD-STATUS",
       some "F-AD-PRIORITY"] := by
  constructor
  · decide
  · decide

/-- C7: `add_relation` with a valid kind accepts arbitrary source/target
strings without any registration check, stores them verbatim, and the
encoder emits exactly one `SPEC-RELATION` block per stored relation whose
`SOURCE`/`TARGET` references carry those strings verbatim. -/
theorem C7_relation_verbatim (st : GenState) (rt s t : String) (idf : Option String)
    (h : rt ∈ (["satisfy", "derive", "refine"] : List String)) :
    ∃ rel : RelEdge,
      add_relation st rt s t idf =
        (.ok (), { st with spec_relations := st.spec_relations ++ [rel] }) ∧
      rel.source = s ∧ rel.target = t ∧
      (∀ ts, sourceRefOf (relationXml ts rel) = some s ∧
        targetRefOf (relationXml ts rel) = some t) ∧
      (∀ st' : GenState, st'.spec_relations = st.spec_relations ++ [rel] →
        childAt (childAt (childAt (generate st') 1) 0) 3 =
          .mk "SPEC-RELATIONS" [] none
            ((st.spec_relations ++ [rel]).map (relationXml st'.timestamp))) := by
  simp only [List.mem_cons, List.mem_singleton, List.not_mem_nil, or_false] at h
  rcases h with rfl | rfl | rfl <;>
  · simp only [add_relation, relTypeMap, reduceIte]
    refine ⟨_, rfl, rfl, rfl, ?_, ?_⟩
    · intro ts
      exact ⟨rfl, rfl⟩
    · intro st' hrel
      simp [generate, childAt, XNode.children, hrel]

/-- C7 witness: a satisfy relation between the unregistered identifiers
`"NOPE-1"` and `"NOPE-2"` is accepted and stored verbatim. -/
theorem C7_witness :
    ∃ rel : RelEdge,
      add_relation (initState "T" "TS") "satisfy" "NOPE-1" "NOPE-2" none =
        (.ok (), { initState "T" "TS" with
          spec_relations := (initState "T" "TS").spec_relations ++ [rel] }) ∧
      rel.source = "NOPE-1" ∧ rel.target = "NOPE-2" := by
  obtain ⟨rel, h1, h2, h3, _, _⟩ :=
    C7_relation_verbatim (initState "T" "TS") "satisfy" "NOPE-1" "NOPE-2" none (by decide)
  exact ⟨rel, h1, h2, h3⟩

theorem digitChar_decode (d : Nat) (h : d < 10) : (Nat.digitChar d).toNat - 48 = d := by
  interval_cases d <;> rfl

theorem foldl_digitChars (ds : List Nat) (h : ∀ d ∈ ds, d < 10) : ∀ a : Nat,
    List.foldl (fun x c => x * 10 + (c.toNat - 48)) a ((ds.reverse).map Nat.digitChar) =
      a * 10 ^ ds.length + Nat.ofDigits 10 ds := by
  induction ds with
  | nil => intro a; simp [Nat.ofDigits]
  | cons d rest ih =>
    intro a
    rw [List.reverse_cons, List.map_append, List.foldl_append,
      ih (fun x hx => h x (List.mem_cons_of_mem d hx)) a]
    simp only [List.map_cons, List.map_nil, List.foldl_cons, List.foldl_nil]
    rw [digitChar_decode d (h d (by simp)), Nat.ofDigits_cons, List.length_cons, pow_succ]
    ring

theorem decVal_pyStr (n : Nat) : decVal (pyStr n).data = n := by
  by_cases h : n = 0
  · subst h; decide
  · unfold pyStr
    rw [if_neg h]
    show List.foldl (fun x c => x * 10 + (c.toNat - 48)) 0
      (((Nat.digits 10 n).reverse).map Nat.digitChar) = n
    rw [foldl_digitChars (Nat.digits 10 n)
      (fun d hd => Nat.digits_lt_base (by norm_num) hd) 0]
    simp [Nat.ofDigits_digits]

theorem foldl_zeros (k : Nat) :
    List.foldl (fun x c => x * 10 + (c.toNat - 48)) 0 (List.replicate k '0') = 0 := by
  induction k with
  | zero => rfl
  | succ m ih =>
    rw [List.replicate_succ, List.foldl_cons]
    simpa using ih

theorem decVal_replicate (k : Nat) (l : List Char) :
    decVal (List.replicate k '0' ++ l) = decVal l := by
  unfold decVal
  rw [List.foldl_append, foldl_zeros]

theorem zfill_pyStr_inj (a b : Nat)
    (h : (pyZfill 3 (pyStr a)).data = (pyZfill 3 (pyStr b)).data) : a = b := by
  have ha : decVal (pyZfill 3 (pyStr a)).data = a := by
    show decVal (List.replicate _ '0' ++ (pyStr a).data) = a
    rw [decVal_replicate, decVal_pyStr]
  have hb : decVal (pyZfill 3 (pyStr b)).data = b := by
    show decVal (List.replicate _ '0' ++ (pyStr b).data) = b
    rw [decVal_replicate, decVal_pyStr]
  rw [h, hb] at ha
  exact ha.symm

theorem autoSoId_data (c : String) (n : Nat) :
    (autoSoId c n).data =
      'S' :: 'O' :: '-' :: (c.data ++ '-' :: (pyZfill 3 (pyStr n)).data) := by
  show ("SO-" ++ c ++ "-" ++ pyZfill 3 (pyStr n)).data = _
  simp [String.data_append, List.append_assoc, List.cons_append, List.singleton_append]

theorem autoSoId_inj (c1 c2 : String) (n1 n2 : Nat)
    (hc1 : c1 ∈ (["F", "I", "P"] : List String))
    (hc2 : c2 ∈ (["F", "I", "P"] : List String))
    (h : autoSoId c1 n1 = autoSoId c2 n2) : n1 = n2 := by
  have hd := congrArg String.data h
  rw [autoSoId_data, autoSoId_data] at hd
  fin_cases hc1 <;> fin_cases hc2 <;>
    simp [(rfl : ("F" : String).data = ['F']), (rfl : ("I" : String).data = ['I']),
      (rfl : ("P" : String).data = ['P'])] at hd <;>
    exact zfill_pyStr_inj n1 n2 hd

theorem typeMap_code_mem (rt tr code apfx : String) (h : typeMap rt = some (tr, code, apfx)) :
    code ∈ (["F", "I", "P"] : List String) := by
  unfold typeMap at h
  split_ifs at h <;> simp_all

theorem AutoIds_append (objs : List Req) (r : Req) (code : String)
    (hcode : code ∈ (["F", "I", "P"] : List String))
    (hid : r.identifier = autoSoId code (objs.length + 1))
    (h : AutoIds objs) : AutoIds (objs ++ [r]) := by
  intro i hi
  rw [List.length_append, List.length_singleton] at hi
  by_cases hlt : i < objs.length
  · obtain ⟨c, hc, he⟩ := h i hlt
    refine ⟨c, hc, ?_⟩
    have hget : (objs ++ [r]).get ⟨i, by rw [List.length_append, List.length_singleton]; omega⟩ =
        objs.get ⟨i, hlt⟩ := by
      rw [List.get_eq_getElem, List.get_eq_getElem]
      exact List.getElem_append_left hlt
    rw [hget]
    exact he
  · have hieq : i = objs.length := by omega
    subst hieq
    refine ⟨code, hcode, ?_⟩
    have hget : (objs ++ [r]).get
        ⟨objs.length, by rw [List.length_append, List.length_singleton]; omega⟩ = r := by
      rw [List.get_eq_getElem]
      exact List.getElem_concat_length objs r _ rfl _
    rw [hget]
    exact hid

theorem runCalls_autoIds (calls : List CallArgs) : ∀ st : GenState,
    (∀ c ∈ calls, c.identifier = none) → AutoIds st.spec_objects →
    AutoIds (runCalls st calls).spec_objects := by
  induction calls with
  | nil => intro st _ h; exact h
  | cons c rest ih =>
    intro st hnone h
    rw [runCalls]
    apply ih
    · exact fun c' hc' => hnone c' (List.mem_cons_of_mem c hc')
    · cases htm : typeMap c.req_type with
      | none => simpa [add_requirement, htm] using h
      | some v =>
        obtain ⟨tr, rest2⟩ := v
        obtain ⟨code, apfx⟩ := rest2
        have hcode := typeMap_code_mem _ _ _ _ htm
        have hidn := hnone c (by simp)
        simp only [add_requirement, htm]
        refine AutoIds_append _ _ code hcode ?_ h
        simp [hidn]

theorem AutoIds_pairwise (objs : List Req) (h : AutoIds objs) :
    List.Pairwise (· ≠ ·) (objs.map Req.identifier) := by
  rw [List.pairwise_iff_get]
  intro i j hij
  intro heq
  have hi : (i : Nat) < objs.length := by
    have := i.2
    simpa using this
  have hj : (j : Nat) < objs.length := by
    have := j.2
    simpa using this
  obtain ⟨ci, _hci, hei⟩ := h i hi
  obtain ⟨cj, _hcj, hej⟩ := h j hj
  rw [List.get_map, List.get_map] at heq
  have heq2 : autoSoId ci ((i : Nat) + 1) = autoSoId cj ((j : Nat) + 1) := by
    rw [← hei, ← hej]
    exact heq
  have := autoSoId_inj ci cj _ _ _hci _hcj heq2
  omega

/-- C5: across any sequence of `add_requirement` calls that never supply
an explicit identifier, every stored identifier is the per-kind short code
prefixed `SO-<code>-<zfill3(k)>` where `k` is the global running object
count at registration (regardless of kind mix), and the stored
identifiers are pairwise distinct. -/
theorem C5_auto_ids_distinct (title ts : String) (calls : List CallArgs)
    (h : ∀ c ∈ calls, c.identifier = none) :
    AutoIds (runCalls (initState title ts) calls).spec_objects ∧
    List.Pairwise (· ≠ ·)
      ((runCalls (initState title ts) calls).spec_objects.map Req.identifier) := by
  have ha : AutoIds (runCalls (initState title ts) calls).spec_objects := by
    apply runCalls_autoIds calls (initState title ts) h
    intro i hi
    exact absurd hi (by simp [initState])
  exact ⟨ha, AutoIds_pairwise _ ha⟩

/-- C5 witness: two identifier-less calls of different kinds yield
pairwise-distinct stored identifiers. -/
theorem C5_witness :
    List.Pairwise (· ≠ ·)
      ((runCalls (initState "T" "TS") callsEx).spec_objects.map Req.identifier) :=
  (C5_auto_ids_distinct "T" "TS" callsEx (by intro c hc; fin_cases hc <;> rfl)).2

theorem substTs_xhtmlElement (ts s : String) :
    substTs ts (xhtmlElement s) = xhtmlElement s := by
  simp [xhtmlElement, substTs_mk, nsTag, xhtmlNs]

theorem substTs_headerXml (ts1 ts2 title : String) :
    substTs ts2 (headerXml title ts1) = headerXml title ts2 := by
  simp [headerXml, substTs_mk]

theorem substTs_datatypeChildren (ts : String) :
    datatypeChildren.map (substTs ts) = datatypeChildren := by
  simp [datatypeChildren, enumValueXml, substTs_mk]

theorem substTs_specTypesChildren (ts : String) :
    specTypesChildren.map (substTs ts) = specTypesChildren := by
  simp [specTypesChildren, specObjectTypeXml, attrDefXml, substTs_mk]

theorem substTs_specObjectXml (ts1 ts2 : String) (r : Req)
    (h : ∀ ts, substTsTC ts r.text_content = r.text_content) :
    substTs ts2 (specObjectXml ts1 r) = specObjectXml ts2 r := by
  have htc : substTs ts2 (textContentXml r.text_content) = textContentXml r.text_content := by
    cases hc : r.text_content with
    | elem x =>
      have h2 := h ts2
      rw [hc] at h2
      simp only [substTsTC, TextContent.elem.injEq] at h2
      simpa [textContentXml] using h2
    | plain s => simp [textContentXml, substTs_xhtmlElement]
  simp [specObjectXml, substTs_mk, substTs_xhtmlElement, htc]

theorem substTs_relationXml (ts1 ts2 : String) (rel : RelEdge) :
    substTs ts2 (relationXml ts1 rel) = relationXml ts2 rel := by
  simp [relationXml, substTs_mk]

theorem substTs_specHierarchyXml (ts1 ts2 : String) (idx : Nat) (r : Req) :
    substTs ts2 (specHierarchyXml ts1 idx r) = specHierarchyXml ts2 idx r := by
  simp [specHierarchyXml, substTs_mk]

theorem substTs_specificationXml (ts1 ts2 title : String) (objs : List Req) :
    substTs ts2 (specificationXml ts1 title objs) = specificationXml ts2 title objs := by
  simp only [specificationXml, substTs_mk, List.map_cons, List.map_nil, List.map_map]
  simp [substTs_mk, substTs_xhtmlElement]
  intro a b _
  exact substTs_specHierarchyXml ts1 ts2 a b

/-- C2 (amended): the encoder is a pure function of the document state and
the construction-time clock string; for a fixed state, changing only the
timestamp changes the output exactly at the clock positions — the
`CREATION-TIME` header text and the `LAST-CHANGE` attribute carried by
every `SPEC-OBJECT`, `SPEC-RELATION`, `SPECIFICATION` and `SPEC-HIERARCHY`
element — so the host-clock value also appears outside the header
(provided caller-supplied rich-text payloads contain no clock positions of
their own). -/
theorem C2_timestamp_positions (st : GenState) (ts2 : String)
    (h : ∀ r ∈ st.spec_objects, ∀ ts, substTsTC ts r.text_content = r.text_content) :
    generate { st with timestamp := ts2 } = substTs ts2 (generate st) := by
  have hobj : (st.spec_objects.map (specObjectXml st.timestamp)).map (substTs ts2) =
      st.spec_objects.map (specObjectXml ts2) := by
    rw [List.map_map]
    exact List.map_congr_left fun r hr =>
      substTs_specObjectXml st.timestamp ts2 r (h r hr)
  have hrel : (st.spec_relations.map (relationXml st.timestamp)).map (substTs ts2) =
      st.spec_relations.map (relationXml ts2) := by
    rw [List.map_map]
    exact List.map_congr_left fun rel _ => substTs_relationXml st.timestamp ts2 rel
  simp [generate, substTs_mk, substTs_headerXml, substTs_datatypeChildren,
    substTs_specTypesChildren, substTs_specificationXml, hobj, hrel]

/-- C2 counterexample: in the encoded tree of a one-object document
created at clock value `TS-CLOCK-01`, that clock value occurs as the
`LAST-CHANGE` attribute of the `SPEC-OBJECT` block inside `CORE-CONTENT`
(child 1 of the root), i.e. outside `THE-HEADER` (child 0), refuting
"host-clock value only in the header". -/
theorem C2_counterexample :
    (childAt (generate stC2) 0).tag = "THE-HEADER" ∧
    (childAt (childAt (childAt (childAt (generate stC2) 1) 0) 2) 0).tag = "SPEC-OBJECT" ∧
    dictGet (childAt (childAt (childAt (childAt (generate stC2) 1) 0) 2) 0).attrs
      "LAST-CHANGE" = some "TS-CLOCK-01" ∧
    stC2.timestamp = "TS-CLOCK-01" := by
  decide

/-- C2 witness: the substitution characterization applied to the concrete
one-object document `stC2` and the second clock value. -/
theorem C2_witness :
    generate { stC2 with timestamp := "TS-CLOCK-02" } =
      substTs "TS-CLOCK-02" (generate stC2) :=
  C2_timestamp_positions stC2 "TS-CLOCK-02" (by
    intro r hr ts
    simp [stC2, add_requirement, typeMap, initState] at hr
    subst hr
    rfl)
